import Mathlib

/-
Verification of the pylogfig configuration loader (src/pylogfig/main.py)
against its natural-language specification.

The Python module is shallowly embedded: Python values flowing through the
loader become the inductive type Value, Python dicts become ordered
association lists with insert-or-overwrite semantics, raised exceptions
become the error side of Except, and the external parsing libraries
(tomllib, json, yaml, ElementTree, configparser, dotenv) together with the
file system are abstracted into a World record of oracles, so that the
dispatch and wrapping logic of the module itself is modelled exactly.
-/

namespace Pylogfig

/-- A Python value as it appears in a parsed configuration tree:
None, bools, ints, strings, lists, and dicts with string keys
(the ConfigTree shape of the spec). -/
inductive Value where
  | null
  | bool (b : Bool)
  | int (n : Int)
  | str (s : String)
  | list (vs : List Value)
  | dict (entries : List (String × Value))

/-- The name Python reports for the runtime type of a value
(as it would appear in an AttributeError or TypeError message). -/
def Value.typeName : Value → String
  | .null => "NoneType"
  | .bool _ => "bool"
  | .int _ => "int"
  | .str _ => "str"
  | .list _ => "list"
  | .dict _ => "dict"

/-- Whether the value is Python None (the test value is None). -/
def Value.isNull : Value → Bool
  | .null => true
  | _ => false

/-- The exception kinds the module can let escape to a caller. -/
inductive PyError where
  | configParseError (msg : String)
  | valueError (msg : String)
  | typeError (msg : String)
  | attributeError (msg : String)
deriving DecidableEq

/-- Whether the exception is the uniform ConfigParseError kind. -/
def PyError.isConfigParseError : PyError → Bool
  | .configParseError _ => true
  | _ => false

/-- Python dict assignment d[k] = v: overwrite in place if the key is
present, otherwise append at the end (insertion order preserved). -/
def dictInsert {α : Type} : List (String × α) → String → α → List (String × α)
  | [], k, v => [(k, v)]
  | (k1, v1) :: rest, k, v =>
    if k1 = k then (k, v) :: rest else (k1, v1) :: dictInsert rest k v

/-- Python dict key lookup, first match (keys built via dictInsert are
unique, as in a Python dict). -/
def dictLookup {α : Type} : List (String × α) → String → Option α
  | [], _ => none
  | (k1, v1) :: rest, k => if k1 = k then some v1 else dictLookup rest k

/-- Python expression value.get(key, default): dict lookup with a default
on a dict, and an AttributeError on every other receiver type. -/
def valueGetMethod (v : Value) (k : String) (d : Value) : Except PyError Value :=
  match v with
  | .dict es => .ok ((dictLookup es k).getD d)
  | v => .error (.attributeError (v.typeName ++ " object has no attribute get"))

/-- Python str.split with a one-character separator, over an explicit
character list with an accumulator for the current segment (reversed). -/
def pySplitChars (c : Char) : List Char → List Char → List String
  | [], acc => [acc.reverse.asString]
  | x :: xs, acc =>
    if x = c then acc.reverse.asString :: pySplitChars c xs []
    else pySplitChars c xs (x :: acc)

/-- Python key.split(sep) for a one-character separator sep, as used by
Config.get with the dot: every separator occurrence cuts, empty segments
are kept, and the result is never empty. -/
def pySplit (c : Char) (s : String) : List String :=
  pySplitChars c s.toList []

/-- The for-loop of Config.get over the split key segments:
value = value.get(key, default); if value is None: return default. -/
def getWalk (value : Value) (keys : List String) (default : Value) :
    Except PyError Value :=
  match keys with
  | [] => .ok value
  | k :: rest =>
    match valueGetMethod value k default with
    | .error e => .error e
    | .ok v => if v.isNull then .ok default else getWalk v rest default

/-- Config.get(key=None, default=None) against a given tree self._config.
A key of None or of the empty string is falsy in Python, so the whole
tree is returned; otherwise the key is split on the dot and walked. -/
def configGet (config : Value) (key : Option String) (default : Value) :
    Except PyError Value :=
  match key with
  | none => .ok config
  | some k =>
    if k = "" then .ok config
    else getWalk config (pySplit '.' k) default

/-- The tree of the specification example, a nested dict a.b = 5. -/
def tree1 : Value := Value.dict [("a", Value.dict [("b", Value.int 5)])]

/-- Python str.strip: drop leading and trailing whitespace characters
(the ASCII whitespace subset shared by Python and Char.isWhitespace). -/
def pyStrip (s : String) : String :=
  ((s.toList.dropWhile Char.isWhitespace).reverse.dropWhile
    Char.isWhitespace).reverse.asString

/-- Python line.startswith for a one-character prefix string. -/
def startsWithChar (s : String) (c : Char) : Bool :=
  match s.toList with
  | [] => false
  | x :: _ => x = c

/-- Python line.split(sep, 1): cut at the first occurrence of the
character, none when the character does not occur (the in test). -/
def splitFirst (c : Char) (s : String) : Option (String × String) :=
  match s.toList.findIdx? (fun x => x = c) with
  | none => none
  | some i => some ((s.toList.take i).asString, (s.toList.drop (i + 1)).asString)

/-- The extension component of os.path.splitext: the basename's suffix
from its last dot, except that a basename whose characters before that
dot are all dots (for example .env as a whole filename) has no
extension. -/
def splitextExt (p : String) : String :=
  let b := (pySplit '/' p).getLastD ""
  let cs := b.toList
  let after := (cs.reverse.takeWhile (fun x => x ≠ '.')).reverse
  if after.length = cs.length then ""
  else
    let pre := cs.take (cs.length - after.length - 1)
    if pre.any (fun x => x ≠ '.') then ('.' :: after).asString else ""

/-- An ElementTree element: a tag, the text content (None when absent),
and the list of child elements, in document order. -/
inductive XmlElement where
  | elem (tag : String) (text : Option String) (children : List XmlElement)

/-- The tag of an element. -/
def XmlElement.tag : XmlElement → String
  | .elem t _ _ => t

/-- The Python value of element.text: the string, or None. -/
def xmlText : Option String → Value
  | none => Value.null
  | some t => Value.str t

mutual

/-- The inner function xml_to_dict of Config.parse_xml_file: an element
with zero children becomes its text, an element with children becomes a
dict built child by child with result[child.tag] = xml_to_dict(child). -/
def xml_to_dict : XmlElement → Value
  | .elem _ text [] => xmlText text
  | .elem _ _ (c :: cs) => Value.dict (xmlFold (c :: cs) [])

/-- The for-loop over the children in xml_to_dict, accumulating the
result dict in order. -/
def xmlFold : List XmlElement → List (String × Value) → List (String × Value)
  | [], acc => acc
  | c :: cs, acc => xmlFold cs (dictInsert acc c.tag (xml_to_dict c))

end

/-- Outcome of a call into one of the external parsing libraries or into
the file system: a parsed result, a library-specific parse failure, or a
missing file. -/
inductive LibResult (α : Type) where
  | ok (a : α)
  | err (msg : String)
  | fileNotFound (msg : String)

/-- The oracles for everything outside the module under verification:
per-path results of tomllib.load, json.load, yaml.safe_load,
configparser read (as a section list), ElementTree parse, open plus
read of a text file, and dotenv_values. -/
structure World where
  tomlResult : String → LibResult Value
  jsonResult : String → LibResult Value
  yamlResult : String → LibResult Value
  iniRead : String → LibResult (List (String × List (String × String)))
  xmlParse : String → LibResult XmlElement
  readText : String → Option String
  dotenvValues : String → List (String × Option String)

/-- Config.parse_toml_file: wrap TOMLDecodeError and FileNotFoundError
into ConfigParseError. -/
def parse_toml_file (w : World) (p : String) : Except PyError Value :=
  match w.tomlResult p with
  | .ok v => .ok v
  | .err m => .error (.configParseError ("Failed to parse TOML file: " ++ m))
  | .fileNotFound m => .error (.configParseError ("Failed to parse TOML file: " ++ m))

/-- Config.parse_json_file: wrap JSONDecodeError and FileNotFoundError
into ConfigParseError. -/
def parse_json_file (w : World) (p : String) : Except PyError Value :=
  match w.jsonResult p with
  | .ok v => .ok v
  | .err m => .error (.configParseError ("Failed to parse JSON file: " ++ m))
  | .fileNotFound m => .error (.configParseError ("Failed to parse JSON file: " ++ m))

/-- Config.parse_yaml_file: wrap YAMLError and FileNotFoundError into
ConfigParseError. -/
def parse_yaml_file (w : World) (p : String) : Except PyError Value :=
  match w.yamlResult p with
  | .ok v => .ok v
  | .err m => .error (.configParseError ("Failed to parse YAML file: " ++ m))
  | .fileNotFound m => .error (.configParseError ("Failed to parse YAML file: " ++ m))

/-- The section-to-dict conversion of Config.parse_ini_file. -/
def iniToValue (sections : List (String × List (String × String))) : Value :=
  Value.dict (sections.map
    (fun sec => (sec.1, Value.dict (sec.2.map (fun kv => (kv.1, Value.str kv.2))))))

/-- Config.parse_ini_file: unlike every sibling parser, a caught
configparser.Error or FileNotFoundError is re-raised as ValueError, not
as ConfigParseError. -/
def parse_ini_file (w : World) (p : String) : Except PyError Value :=
  match w.iniRead p with
  | .ok sections => .ok (iniToValue sections)
  | .err m => .error (.valueError ("Failed to parse INI file " ++ p ++ ": " ++ m))
  | .fileNotFound m => .error (.valueError ("Failed to parse INI file " ++ p ++ ": " ++ m))

/-- Config.parse_xml_file: parse the tree, convert the root with
xml_to_dict, wrap ParseError and FileNotFoundError into
ConfigParseError. -/
def parse_xml_file (w : World) (p : String) : Except PyError Value :=
  match w.xmlParse p with
  | .ok root => .ok (xml_to_dict root)
  | .err m => .error (.configParseError ("Failed to parse XML file: " ++ m))
  | .fileNotFound m => .error (.configParseError ("Failed to parse XML file: " ++ m))

/-- One iteration of the line loop of Config.parse_properties_file:
strip the line, skip empties and comment lines, cut at the first equals
sign, else at the first colon, else skip, and insert the stripped key
and value into the accumulator dict. -/
def processLine (d : List (String × String)) (rawLine : String) :
    List (String × String) :=
  let line := pyStrip rawLine
  if line = "" then d
  else if startsWithChar line '#' then d
  else if startsWithChar line '!' then d
  else
    match splitFirst '=' line with
    | some kv => dictInsert d (pyStrip kv.1) (pyStrip kv.2)
    | none =>
      match splitFirst ':' line with
      | some kv => dictInsert d (pyStrip kv.1) (pyStrip kv.2)
      | none => d

/-- The whole line loop of Config.parse_properties_file over the file
content, line by line. -/
def propertiesOfContent (content : String) : List (String × String) :=
  (pySplit '\n' content).foldl processLine []

/-- Config.parse_properties_file: a missing file becomes a
ConfigParseError, otherwise the accumulated flat dict of strings. -/
def parse_properties_file (w : World) (p : String) : Except PyError Value :=
  match w.readText p with
  | none => .error (.configParseError ("File not found: " ++ p))
  | some content =>
    .ok (Value.dict ((propertiesOfContent content).map
      (fun kv => (kv.1, Value.str kv.2))))

/-- The dict dotenv_values returns, as a Value: unset keys are None. -/
def envToValue (vals : List (String × Option String)) : Value :=
  Value.dict (vals.map (fun kv =>
    (kv.1, match kv.2 with | some s => Value.str s | none => Value.null)))

/-- Config.parse_env_file: dotenv_values never raises; a missing file
gives an empty dict. -/
def parse_env_file (w : World) (p : String) : Except PyError Value :=
  .ok (envToValue (w.dotenvValues p))

/-- The error message of the .config branch of Config._load_config
(quote characters of the Python f-string are omitted). -/
def mustSpecifyMsg (p : String) : String :=
  "Must specify file extension to parse as for .config file " ++ p ++ "."

/-- The error message of the final else branch of Config._load_config
(quote characters of the Python f-string are omitted). -/
def invalidExtMsg (p : String) : String :=
  "Invalid file extension: " ++ p ++
    ". Expected a .toml, .json, .yaml, .ini, .xml, .properties, .env, or .config file."

/-- Config._load_config: choose the extension (an explicit file_type is
used when truthy, so None and the empty string fall back to
os.path.splitext), dispatch on it, and reject .config and unknown
extensions with distinct ConfigParseError messages. The surrounding
try block only logs and re-raises the caught exception unchanged, so it
is the identity on the error. -/
def _load_config (w : World) (file_path : String) (file_type : Option String) :
    Except PyError Value :=
  let file_extension :=
    match file_type with
    | some t => if t = "" then splitextExt file_path else t
    | none => splitextExt file_path
  if file_extension = ".toml" then parse_toml_file w file_path
  else if file_extension = ".json" then parse_json_file w file_path
  else if file_extension = ".yaml" then parse_yaml_file w file_path
  else if file_extension = ".yml" then parse_yaml_file w file_path
  else if file_extension = ".ini" then parse_ini_file w file_path
  else if file_extension = ".xml" then parse_xml_file w file_path
  else if file_extension = ".properties" then parse_properties_file w file_path
  else if file_extension = ".env" then parse_env_file w file_path
  else if file_extension = ".config" then
    .error (.configParseError (mustSpecifyMsg file_path))
  else .error (.configParseError (invalidExtMsg file_path))

/-- The instance attributes of a Config object: the primary tree
self._config and the optional logging tree self._logging_config. The
call logging.config.dictConfig applies the logging tree to the global
logging subsystem outside this state and is not modelled. -/
structure ConfigState where
  _config : Value
  _logging_config : Option Value

/-- Config.load_logging_config: a dict is assigned directly; a str makes
the source call self._load_config(input) with a single argument, but
_load_config declares two required positional parameters (file_path and
file_type), so Python raises TypeError at the call before any dispatch
or file access happens; every other type takes the explicit TypeError
branch. -/
def load_logging_config (st : ConfigState) (input : Value) :
    Except PyError ConfigState :=
  match input with
  | .dict es => .ok { st with _logging_config := some (Value.dict es) }
  | .str _ =>
    .error (.typeError
      "_load_config missing 1 required positional argument: file_type")
  | other =>
    .error (.typeError
      ("Expected type dict or str for input, got " ++ other.typeName))

/-- The conditional expression of Config._setup that loads the logging
configuration only when a logging path was supplied and truthy. -/
def loadLoggingAtSetup (w : World) (lp lt : Option String) :
    Except PyError (Option Value) :=
  match lp with
  | none => .ok none
  | some lpath =>
    if lpath = "" then .ok none
    else
      match _load_config w lpath lt with
      | .error e => .error e
      | .ok lc => .ok (some lc)

/-- Config._setup: load the primary tree, then the optional logging
tree. The final dictConfig side effect on the logging subsystem is
outside the modelled state. -/
def _setup (w : World) (p : String) (t lp lt : Option String) :
    Except PyError ConfigState :=
  match _load_config w p t with
  | .error e => .error e
  | .ok cfg =>
    match loadLoggingAtSetup w lp lt with
    | .error e => .error e
    | .ok logCfg => .ok { _config := cfg, _logging_config := logCfg }

/-- Config.__new__: when the class attribute _instance is set, return it
untouched, ignoring every argument of the call; otherwise allocate, run
_setup, and publish the instance. The returned pair is the object handed
to the caller and the class attribute afterwards. When _setup raises,
the exception propagates; the source then actually leaves _instance
pointing at a half-initialized object, which only matters for failed
first constructions and is outside the success-path claims proved
here. -/
def Config_new (w : World) (instance_ : Option ConfigState) (p : String)
    (t lp lt : Option String) : Except PyError (ConfigState × Option ConfigState) :=
  match instance_ with
  | some st => .ok (st, some st)
  | none =>
    match _setup w p t lp lt with
    | .ok st => .ok (st, some st)
    | .error e => .error e

/-- The properties line rule in the words of the specification, for
comparison with the source-derived processLine: after trimming, a line
that is empty or begins with a hash or an exclamation mark is skipped;
otherwise it is split on the first equals sign, or failing that on the
first colon, or skipped; key and value are trimmed. -/
def propertiesSpecLine (rawLine : String) : Option (String × String) :=
  let line := pyStrip rawLine
  if line == "" || startsWithChar line '#' || startsWithChar line '!' then none
  else
    match splitFirst '=' line with
    | some kv => some (pyStrip kv.1, pyStrip kv.2)
    | none =>
      match splitFirst ':' line with
      | some kv => some (pyStrip kv.1, pyStrip kv.2)
      | none => none

/-- The properties algorithm in the words of the specification: keep the
parsed key-value pairs of the lines and fold them into one mapping with
last-write-wins. -/
def propertiesSpec (content : String) : List (String × String) :=
  ((pySplit '\n' content).filterMap propertiesSpecLine).foldl
    (fun d kv => dictInsert d kv.1 kv.2) []

/-- The last element of the child list carrying the given tag, the
sibling whose conversion the specification says survives. -/
def lastWithTag : List XmlElement → String → Option XmlElement
  | [], _ => none
  | c :: cs, t =>
    match lastWithTag cs t with
    | some c2 => some c2
    | none => if c.tag = t then some c else none

/-- The XML document root with two a children of the specification
example. -/
def xmlExample : XmlElement :=
  .elem "root" none [.elem "a" (some "1") [], .elem "a" (some "2") []]

/-- Whether the dotted path, given as its segment list, resolves through
nested dicts of the tree to a stored None. -/
def resolvesToNull : Value → List String → Bool
  | v, [] => v.isNull
  | .dict d, k :: rest =>
    (match dictLookup d k with
     | some v2 => resolvesToNull v2 rest
     | none => false)
  | _, _ :: _ => false

/-- A world in which every file is missing and every library call
fails. -/
def wEmpty : World where
  tomlResult := fun _ => .fileNotFound "missing"
  jsonResult := fun _ => .fileNotFound "missing"
  yamlResult := fun _ => .fileNotFound "missing"
  iniRead := fun _ => .err "missing"
  xmlParse := fun _ => .fileNotFound "missing"
  readText := fun _ => none
  dotenvValues := fun _ => []

/-- A world whose INI reader fails with a malformed-content error, as
configparser does on a bad section header. -/
def wIniBad : World :=
  { wEmpty with iniRead := fun _ => .err "File contains no section headers" }

/-- A world holding the properties file content of the specification
example. -/
def wProps : World :=
  { wEmpty with
    readText := fun _ => some "# comment\nkey1=val1\nkey2:val2\nbadline\n" }

/-- A world in which TOML files parse to the dict k = 1. -/
def wToml : World :=
  { wEmpty with tomlResult := fun _ => .ok (Value.dict [("k", Value.int 1)]) }

/-- A tree in which the path a.b stores None. -/
def treeNull : Value := Value.dict [("a", Value.dict [("b", Value.null)])]

/-- A concrete instance state for the logging-reconfiguration claims. -/
def st0 : ConfigState := { _config := tree1, _logging_config := none }

/-- The state a first construction in the world wToml produces. -/
def cfgSt : ConfigState :=
  { _config := Value.dict [("k", Value.int 1)], _logging_config := none }

end Pylogfig

namespace Pylogfig

theorem dictLookup_insert_self {α : Type} (d : List (String × α)) (k : String) (v : α) :
    dictLookup (dictInsert d k v) k = some v := by
  induction d with
  | nil => simp [dictInsert, dictLookup]
  | cons hd t ih =>
    obtain ⟨k1, v1⟩ := hd
    by_cases hk : k1 = k
    · simp [dictInsert, hk, dictLookup]
    · simp [dictInsert, hk, dictLookup, ih]

theorem dictLookup_insert_ne {α : Type} (d : List (String × α)) (k k2 : String) (v : α)
    (h : k2 ≠ k) : dictLookup (dictInsert d k v) k2 = dictLookup d k2 := by
  have h2 : k ≠ k2 := Ne.symm h
  induction d with
  | nil => simp [dictInsert, dictLookup, h2]
  | cons hd t ih =>
    obtain ⟨k1, v1⟩ := hd
    by_cases hk : k1 = k
    · subst hk
      simp [dictInsert, dictLookup, h2]
    · by_cases hk2 : k1 = k2
      · simp [dictInsert, hk, dictLookup, hk2, h]
      · simp [dictInsert, hk, dictLookup, hk2, ih]

theorem value_isNull_iff (v : Value) : v.isNull = true ↔ v = Value.null := by
  cases v <;> simp [Value.isNull]

theorem pySplitChars_ne_nil (c : Char) (xs : List Char) :
    ∀ acc, pySplitChars c xs acc ≠ [] := by
  induction xs with
  | nil => intro acc; simp [pySplitChars]
  | cons x t ih =>
    intro acc
    by_cases hx : x = c
    · simp [pySplitChars, hx]
    · simp [pySplitChars, hx, ih]

theorem getWalk_cons (value : Value) (k : String) (rest : List String) (default : Value) :
    getWalk value (k :: rest) default =
      (match valueGetMethod value k default with
       | .error e => .error e
       | .ok v => if v.isNull then .ok default else getWalk v rest default) := rfl

theorem getWalk_resolved_null (default : Value) :
    ∀ (segs : List String) (k : String) (tree : Value),
      resolvesToNull tree (k :: segs) = true →
      getWalk tree (k :: segs) default = .ok default := by
  intro segs
  induction segs with
  | nil =>
    intro k tree h
    cases tree with
    | dict d =>
      cases hl : dictLookup d k with
      | none => simp [resolvesToNull, hl] at h
      | some v2 =>
        simp only [resolvesToNull, hl] at h
        have hv : v2 = Value.null := (value_isNull_iff v2).mp h
        rw [getWalk_cons]
        simp [valueGetMethod, hl, hv, Value.isNull]
    | null => simp [resolvesToNull] at h
    | bool b => simp [resolvesToNull] at h
    | int n => simp [resolvesToNull] at h
    | str s => simp [resolvesToNull] at h
    | list vs => simp [resolvesToNull] at h
  | cons s rest ih =>
    intro k tree h
    cases tree with
    | dict d =>
      cases hl : dictLookup d k with
      | none => simp [resolvesToNull, hl] at h
      | some v2 =>
        simp only [resolvesToNull, hl] at h
        have hnn : v2.isNull = false := by
          cases v2 <;> first | rfl | simp [resolvesToNull] at h
        rw [getWalk_cons]
        have hgm : valueGetMethod (Value.dict d) k default = .ok v2 := by
          simp [valueGetMethod, hl]
        rw [hgm]
        simp only [hnn]
        simp only [Bool.false_eq_true, if_false]
        exact ih s v2 h
    | null => simp [resolvesToNull] at h
    | bool b => simp [resolvesToNull] at h
    | int n => simp [resolvesToNull] at h
    | str s2 => simp [resolvesToNull] at h
    | list vs => simp [resolvesToNull] at h

/-- C1: Config.get on the tree a.b = 5 returns 5 for a.b and 42 for the
default lookup a.c, but on x.y with the string default none it does not
stop early: the code substitutes the default at the missing segment x and
then calls .get on that string, raising AttributeError; with a dict
default it even keeps traversing into the default. This refutes the
claimed stop-early-and-return semantics. -/
theorem c1_get_per_segment_default_bug :
    configGet tree1 (some "a.b") Value.null = .ok (Value.int 5)
    ∧ configGet tree1 (some "a.c") (Value.int 42) = .ok (Value.int 42)
    ∧ configGet tree1 (some "x.y") (Value.str "none") =
        .error (.attributeError "str object has no attribute get")
    ∧ configGet tree1 (some "x.y") (Value.dict [("y", Value.int 7)]) =
        .ok (Value.int 7) :=
  ⟨rfl, rfl, rfl, rfl⟩

/-- C2: on the tree a.b = 5 the lookup a.b.c reaches the integer 5 with
the segment c still remaining; the claim says the default None is then
returned, but the code calls .get on the integer and raises
AttributeError. -/
theorem c2_nonmapping_midpath_raises :
    configGet tree1 (some "a.b.c") Value.null =
      .error (.attributeError "int object has no attribute get") := rfl

/-- C9: a stored None is indistinguishable from an absent key: whenever
the dotted key path resolves through the tree to a stored None,
Config.get returns the caller-supplied default (and hence None when no
default was passed) instead of the stored None. -/
theorem c9_null_indistinguishable (tree : Value) (key : String) (default : Value)
    (hk : key ≠ "") (h : resolvesToNull tree (pySplit '.' key) = true) :
    configGet tree (some key) default = .ok default := by
  unfold configGet
  simp only [hk, if_false]
  cases hs : pySplit '.' key with
  | nil => exact absurd hs (pySplitChars_ne_nil '.' key.toList [])
  | cons k rest =>
    rw [hs] at h
    exact getWalk_resolved_null default rest k tree h

theorem c9_witness :
    ("a.b" ≠ "" ∧ resolvesToNull treeNull (pySplit '.' "a.b") = true)
    ∧ configGet treeNull (some "a.b") (Value.int 7) = .ok (Value.int 7) :=
  ⟨⟨by decide, by decide⟩,
    c9_null_indistinguishable treeNull "a.b" (Value.int 7) (by decide) (by decide)⟩

/-- C10: loading a logging configuration from a dict touches only the
logging slot of the instance state: the primary tree is unchanged, so
every Config.get answer is the same before and after the call. -/
theorem c10_logging_frame (st : ConfigState) (es : List (String × Value)) :
    ∃ st2, load_logging_config st (Value.dict es) = .ok st2
      ∧ st2._config = st._config
      ∧ ∀ (key : Option String) (default : Value),
          configGet st2._config key default = configGet st._config key default :=
  ⟨{ st with _logging_config := some (Value.dict es) }, rfl, rfl, fun _ _ => rfl⟩

/-- C4: load_logging_config applies a dict directly without file access,
and rejects an int with the explicit TypeError branch; but a path string
also raises TypeError, because the source calls self._load_config(input)
with one argument while _load_config requires the two positional
arguments file_path and file_type. The claimed rule that TypeError is
raised exactly for non-dict non-str input is therefore false: a str
raises too, and no re-parse happens. -/
theorem c4_load_logging_config_arity :
    load_logging_config st0 (Value.dict [("version", Value.int 1)]) =
      .ok { st0 with _logging_config := some (Value.dict [("version", Value.int 1)]) }
    ∧ load_logging_config st0 (Value.str "logging_config.toml") =
        .error (.typeError
          "_load_config missing 1 required positional argument: file_type")
    ∧ load_logging_config st0 (Value.int 3) =
        .error (.typeError "Expected type dict or str for input, got int") :=
  ⟨rfl, rfl, rfl⟩

theorem processLine_eq_spec (d : List (String × String)) (l : String) :
    processLine d l =
      (match propertiesSpecLine l with
       | some kv => dictInsert d kv.1 kv.2
       | none => d) := by
  unfold processLine propertiesSpecLine
  by_cases h1 : pyStrip l = ""
  · simp [h1]
  · by_cases h2 : startsWithChar (pyStrip l) '#'
    · simp [h1, h2]
    · by_cases h3 : startsWithChar (pyStrip l) '!'
      · simp [h1, h2, h3]
      · simp only [h1, h2, h3]
        simp [h1, h2, h3]
        cases splitFirst '=' (pyStrip l) with
        | some kv => simp
        | none =>
          cases splitFirst ':' (pyStrip l) with
          | some kv => simp
          | none => simp

theorem foldl_processLine_eq (ls : List String) :
    ∀ d, ls.foldl processLine d =
      (ls.filterMap propertiesSpecLine).foldl
        (fun d2 kv => dictInsert d2 kv.1 kv.2) d := by
  induction ls with
  | nil => intro d; rfl
  | cons l t ih =>
    intro d
    rw [List.foldl_cons, processLine_eq_spec]
    cases hl : propertiesSpecLine l with
    | none => simp [List.filterMap_cons, hl, ih]
    | some kv => simp [List.filterMap_cons, hl, ih]

/-- C5: the properties parser implements exactly the skip, split and
trim rule the specification states, with last-write-wins accumulation:
the source-derived line loop coincides with the rule as worded in the
specification on every content, and the specification example parses to
the stated two-entry mapping. -/
theorem c5_properties_algorithm :
    (∀ content : String, propertiesOfContent content = propertiesSpec content)
    ∧ parse_properties_file wProps "app.properties" =
        .ok (Value.dict [("key1", Value.str "val1"), ("key2", Value.str "val2")]) := by
  constructor
  · intro content
    unfold propertiesOfContent propertiesSpec
    exact foldl_processLine_eq (pySplit '\n' content) []
  · rfl

theorem xmlFold_lookup (t : String) :
    ∀ (cs : List XmlElement) (acc : List (String × Value)),
      dictLookup (xmlFold cs acc) t =
        (match lastWithTag cs t with
         | some c => some (xml_to_dict c)
         | none => dictLookup acc t) := by
  intro cs
  induction cs with
  | nil => intro acc; rfl
  | cons c cs2 ih =>
    intro acc
    rw [show xmlFold (c :: cs2) acc =
          xmlFold cs2 (dictInsert acc c.tag (xml_to_dict c)) from rfl]
    rw [ih]
    cases hl : lastWithTag cs2 t with
    | some c2 => simp [lastWithTag, hl]
    | none =>
      simp only [lastWithTag, hl]
      by_cases hc : c.tag = t
      · rw [← hc]
        simp [dictLookup_insert_self]
      · simp [hc, dictLookup_insert_ne _ _ _ _ (Ne.symm hc)]

/-- C6: the XML conversion rule: a childless element becomes its text
content (None when absent), an element with children becomes the dict
keyed by child tags whose entry for any tag is the conversion of the
last sibling carrying that tag, and the specification example with two
a siblings converts to the dict a = 2. -/
theorem c6_xml_conversion :
    (∀ (tag : String) (text : Option String),
        xml_to_dict (.elem tag text []) = xmlText text)
    ∧ (∀ (tag : String) (text : Option String) (c : XmlElement)
        (cs : List XmlElement) (t : String),
        ∃ d, xml_to_dict (.elem tag text (c :: cs)) = Value.dict d
          ∧ dictLookup d t =
              (match lastWithTag (c :: cs) t with
               | some c2 => some (xml_to_dict c2)
               | none => none))
    ∧ xml_to_dict xmlExample = Value.dict [("a", Value.str "2")] := by
  refine ⟨fun tag text => rfl, ?_, rfl⟩
  intro tag text c cs t
  refine ⟨xmlFold (c :: cs) [], rfl, ?_⟩
  rw [xmlFold_lookup]
  cases lastWithTag (c :: cs) t <;> rfl

/-- C3: the load path does not surface one uniform error type: an INI
parse failure is re-raised by parse_ini_file as ValueError, which the
dispatcher re-raises unchanged, so the caller sees ValueError and not
ConfigParseError for the INI format. -/
theorem c3_ini_failure_not_uniform :
    _load_config wIniBad "settings.ini" none =
      .error (.valueError
        "Failed to parse INI file settings.ini: File contains no section headers")
    ∧ (PyError.valueError
        "Failed to parse INI file settings.ini: File contains no section headers").isConfigParseError
        = false :=
  ⟨rfl, rfl⟩

/-- C7: first construction wins. If a first call of Config.__new__ (with
an unset class attribute) succeeds and returns the state st, then the
class attribute now holds st, any later construction call returns st
unchanged with all its own parameters (including its whole world of
files) ignored, and st reflects exactly what loading the first primary
path produced. -/
theorem c7_singleton_first_wins (w w2 : World) (p p2 : String)
    (t lp lt t2 lp2 lt2 : Option String) (st : ConfigState)
    (cls : Option ConfigState)
    (h : Config_new w none p t lp lt = .ok (st, cls)) :
    cls = some st
    ∧ Config_new w2 (some st) p2 t2 lp2 lt2 = .ok (st, some st)
    ∧ _load_config w p t = .ok st._config := by
  unfold Config_new at h
  cases hs : _setup w p t lp lt with
  | error e => rw [hs] at h; simp at h
  | ok st2 =>
    rw [hs] at h
    simp only [Except.ok.injEq, Prod.mk.injEq] at h
    obtain ⟨h4, h5⟩ := h
    subst h4
    subst h5
    refine ⟨rfl, rfl, ?_⟩
    unfold _setup at hs
    cases hl : _load_config w p t with
    | error e => rw [hl] at hs; simp at hs
    | ok cfg =>
      rw [hl] at hs
      cases hlog : loadLoggingAtSetup w lp lt with
      | error e => rw [hlog] at hs; simp at hs
      | ok logCfg =>
        rw [hlog] at hs
        simp only [Except.ok.injEq] at hs
        rw [← hs]

theorem c7_witness :
    ((some cfgSt : Option ConfigState) = some cfgSt
      ∧ Config_new wEmpty (some cfgSt) "other.json" none none none =
          .ok (cfgSt, some cfgSt)
      ∧ _load_config wToml "config.toml" none = .ok cfgSt._config) :=
  c7_singleton_first_wins wToml wEmpty "config.toml" "other.json"
    none none none none none none cfgSt (some cfgSt) rfl

theorem string_append_data (a b : String) : (a ++ b).data = a.data ++ b.data := rfl

theorem head_append_of_ne_nil (a b : String) (h : a.data ≠ []) :
    (a ++ b).data.head? = a.data.head? := by
  rw [string_append_data]
  cases hd : a.data with
  | nil => exact absurd hd h
  | cons x t2 => simp

theorem mustSpecifyMsg_ne_invalidExtMsg (p q : String) :
    mustSpecifyMsg p ≠ invalidExtMsg q := by
  intro h
  have ha : ("Must specify file extension to parse as for .config file ").data ≠ [] := by
    decide
  have hb : ("Invalid file extension: ").data ≠ [] := by decide
  have h1 : ("Must specify file extension to parse as for .config file " ++ p).data ≠ [] := by
    intro hc
    rw [string_append_data, List.append_eq_nil] at hc
    exact ha hc.1
  have h2 : ("Invalid file extension: " ++ q).data ≠ [] := by
    intro hc
    rw [string_append_data, List.append_eq_nil] at hc
    exact hb hc.1
  have hM : (mustSpecifyMsg p).data.head? = some 'M' := by
    unfold mustSpecifyMsg
    rw [head_append_of_ne_nil _ _ h1, head_append_of_ne_nil _ _ ha]
    decide
  have hI : (invalidExtMsg q).data.head? = some 'I' := by
    unfold invalidExtMsg
    rw [head_append_of_ne_nil _ _ h2, head_append_of_ne_nil _ _ hb]
    decide
  have hc := congrArg (fun s => s.data.head?) h
  simp only at hc
  rw [hM, hI] at hc
  exact absurd hc (by decide)

/-- C8: with no override, a path whose extension is .config is rejected
by the dispatcher with the must-specify ConfigParseError, any path whose
extension is outside the supported set is rejected with the generic
invalid-extension ConfigParseError, the two messages never coincide, and
in both cases the result is the same for every world, so no parser and
no file access is involved. -/
theorem c8_config_extension_rejection :
    (∀ (w : World) (p : String), splitextExt p = ".config" →
        _load_config w p none = .error (.configParseError (mustSpecifyMsg p)))
    ∧ (∀ (w : World) (p : String),
        splitextExt p ∉ [".toml", ".json", ".yaml", ".yml", ".ini", ".xml",
          ".properties", ".env", ".config"] →
        _load_config w p none = .error (.configParseError (invalidExtMsg p)))
    ∧ (∀ p q : String, mustSpecifyMsg p ≠ invalidExtMsg q) := by
  refine ⟨?_, ?_, mustSpecifyMsg_ne_invalidExtMsg⟩
  · intro w p h
    simp [_load_config, h]
  · intro w p hmem
    simp only [List.mem_cons, List.not_mem_nil, or_false, not_or] at hmem
    obtain ⟨m1, m2, m3, m4, m5, m6, m7, m8, m9⟩ := hmem
    simp [_load_config, m1, m2, m3, m4, m5, m6, m7, m8, m9]

theorem c8_witness :
    _load_config wEmpty "app.config" none =
      .error (.configParseError (mustSpecifyMsg "app.config"))
    ∧ _load_config wEmpty "app.txt" none =
        .error (.configParseError (invalidExtMsg "app.txt"))
    ∧ mustSpecifyMsg "app.config" ≠ invalidExtMsg "app.txt" :=
  ⟨c8_config_extension_rejection.1 wEmpty "app.config" (by decide),
   c8_config_extension_rejection.2.1 wEmpty "app.txt" (by decide),
   c8_config_extension_rejection.2.2 "app.config" "app.txt"⟩

end Pylogfig
